import Mathlib

/-!
Verification development for the gap-driven PRD assembly pipeline.

This file gives a shallow embedding, in Lean, of the core data model and
operations of the repository:

* the PRD template registry and `PRD` document type (src/src/prd_template.py),
* `analyze_input`, `generate_questions`, `build_prd` and
  `_format_section_content` (src/src/prd_builder.py),
* the interactive-session operations `save_answer`, `finalize_session`,
  `get_cached_questions` and `start_interactive_session`
  (src/api/services/project_processor.py),
* the workspace analysis model and `_merge_analyses`
  (src/api/services/workspace_processor.py).

Language-model collaborators are modelled as explicit function or value
parameters (the call outcome, or a response stream), and the number of
collaborator calls a code path performs is returned explicitly where a
property speaks about call counts.  Timestamps are passed in as explicit
string parameters.  File persistence is modelled by passing the persisted
records in and out as values; a missing file is `Option.none`.
-/

deriving instance DecidableEq for Except

namespace Hamann

/-- Priority levels for PRD sections (`SectionPriority` in prd_template.py). -/
inductive SectionPriority where
  | critical
  | important
  | optional
deriving DecidableEq, Repr

/-- String value of a priority (`SectionPriority.value` in Python, the
`Enum` payload). -/
def SectionPriority.value : SectionPriority → String
  | .critical => "critical"
  | .important => "important"
  | .optional => "optional"

/-- A section in the PRD template (`PRDSection` in prd_template.py).
The `guiding_questions` and `example` fields of the source dataclass are
static prompt text read by no operation modelled here, so they are omitted
from the embedding. -/
structure PRDSection where
  key : String
  title : String
  priority : SectionPriority
  description : String
deriving DecidableEq, Repr

/-- The ordered section catalog `EnterprisePRDTemplate.SECTIONS`
(prd_template.py), keys, titles, priorities and descriptions transcribed
verbatim. -/
def SECTIONS : List PRDSection :=
  [ { key := "business_context", title := "Business Context Brief",
      priority := .critical,
      description := "Strategic context and business rationale" },
    { key := "problem_definition", title := "Problem Definition",
      priority := .critical,
      description := "Detailed problem analysis" },
    { key := "personas_roles", title := "Personas & Roles",
      priority := .critical,
      description := "Detailed user personas and roles" },
    { key := "user_insights", title := "User Insights & Research Links",
      priority := .important,
      description := "Research data, user feedback, and insights" },
    { key := "opportunity_analysis", title := "Opportunity & Market Analysis",
      priority := .important,
      description := "Market opportunity and competitive landscape" },
    { key := "solution_overview", title := "Solution Proposal (General Overview)",
      priority := .critical,
      description := "High-level solution description" },
    { key := "functional_requirements", title := "Functional Requirements",
      priority := .critical,
      description := "Detailed functional specifications" },
    { key := "ux_flows", title := "UX & Flows",
      priority := .critical,
      description := "User experience and interaction flows" },
    { key := "technical_requirements", title := "Technical Requirements",
      priority := .critical,
      description := "Technical specifications and constraints" },
    { key := "acceptance_criteria", title := "Acceptance Criteria",
      priority := .critical,
      description := "Definition of done (Gherkin format recommended)" },
    { key := "kpis_metrics", title := "KPIs & Metrics",
      priority := .critical,
      description := "Success metrics and KPIs" },
    { key := "risks_challenges", title := "Risks & Challenges",
      priority := .important,
      description := "Risks, challenges, and mitigation strategies" },
    { key := "rollout_plan", title := "Rollout Plan",
      priority := .important,
      description := "Launch and rollout strategy" },
    { key := "out_of_scope", title := "Out of Scope",
      priority := .important,
      description := "Explicitly excluded items" },
    { key := "appendix", title := "Appendix",
      priority := .optional,
      description := "Supporting materials" } ]

/-- Section lookup by key (`EnterprisePRDTemplate.get_section`): linear scan
over `SECTIONS`, first match wins, `none` when absent. -/
def getSection (key : String) : Option PRDSection :=
  SECTIONS.find? (fun s => s.key == key)

theorem getSection_key_eq {k : String} {s : PRDSection}
    (h : getSection k = some s) : s.key = k := by
  have hp := List.find?_some h
  exact of_decide_eq_true hp

/-- A missing piece of information (`Gap` dataclass in prd_builder.py). -/
structure Gap where
  section_key : String
  section_title : String
  priority : SectionPriority
  question : String
  context : String
  options : Option (List String) := none
deriving DecidableEq, Repr

/-- Result of analyzing the input context (`AnalysisResult` dataclass in
prd_builder.py).  Confidence scores are JSON numbers; they are carried as
`Float` and read by no operation verified here. -/
structure AnalysisResult where
  product_name : String
  extracted_info : List (String × String)
  confidence_scores : List (String × Float)
  explicit_features : List String
  inferred_features : List String
  gaps : List Gap

/-- One entry of the `missing_sections` array in the model response parsed
by `analyze_input`.  The source supports both a plain string (the section
key) and an object with `section_key` and `reason` fields, either of which
may be absent from the JSON. -/
inductive MissingEntry where
  | plain (section_key : String)
  | detailed (section_key : Option String) (reason : Option String)
deriving DecidableEq, Repr

/-- The JSON object `analyze_input` obtains from `json.loads` on the model
response.  Every field is optional and read through `.get` with a default
in the source, hence the `Option` types.  Dictionaries are carried as
association lists (first binding wins on lookup, matching unique-key JSON
objects). -/
structure ParsedAnalysis where
  product_name : Option String := none
  extracted_info : Option (List (String × String)) := none
  confidence_scores : Option (List (String × Float)) := none
  explicit_features : Option (List String) := none
  inferred_features : Option (List String) := none
  missing_sections : Option (List MissingEntry) := none

/-- Preview of a related extracted section used in gap contexts: the source
truncates to 150 characters and appends an ellipsis. -/
def contentPreview (c : String) : String :=
  if c.length > 150 then c.take 150 ++ "..." else c

/-- The `related_sections` chain in `analyze_input`: an if/elif ladder
pairing specific missing sections with already-extracted ones. -/
def relatedSections (section_key : String)
    (extracted_info : List (String × String)) : List String :=
  if section_key = "ux_flows" ∧ (extracted_info.lookup "functional_requirements").isSome then
    ["functional_requirements"]
  else if section_key = "acceptance_criteria" ∧ (extracted_info.lookup "functional_requirements").isSome then
    ["functional_requirements"]
  else if section_key = "risks_challenges" ∧ (extracted_info.lookup "solution_overview").isSome then
    ["solution_overview"]
  else if section_key = "kpis_metrics" ∧ (extracted_info.lookup "solution_overview").isSome then
    ["solution_overview"]
  else if section_key = "technical_requirements" ∧ (extracted_info.lookup "functional_requirements").isSome then
    ["functional_requirements"]
  else []

/-- The lines listing related available information inside a gap context. -/
def relatedLines (related : List String)
    (extracted_info : List (String × String)) : List String :=
  related.filterMap (fun rel_key =>
    match getSection rel_key, extracted_info.lookup rel_key with
    | some rel_section, some content =>
        some ("- " ++ rel_section.title ++ ": " ++ contentPreview content)
    | _, _ => none)

/-- The human-readable context string `analyze_input` attaches to each gap,
assembled from the AI-given reason, the product name, related extracted
sections and the explicit feature list, with a fixed fallback sentence when
nothing applies. -/
def gapContext (section_key product_name : String)
    (extracted_info : List (String × String))
    (explicit_features : List String) (ai_reason : String) : String :=
  let parts0 : List String :=
    if ai_reason ≠ "" then ["Razón: " ++ ai_reason] else []
  let parts1 : List String :=
    if product_name ≠ "" ∧ product_name ≠ "Producto Sin Nombre" ∧ ai_reason = "" then
      parts0 ++ ["Producto: " ++ product_name]
    else parts0
  let related := relatedSections section_key extracted_info
  let parts2 : List String :=
    if related ≠ [] then
      parts1 ++ ["\nInformación relacionada disponible:"] ++ relatedLines related extracted_info
    else parts1
  let parts3 : List String :=
    if explicit_features ≠ [] then
      parts2 ++ ["\nFeatures identificadas: " ++ String.intercalate ", " (explicit_features.take 3)]
        ++ (if explicit_features.length > 3 then
              ["(y " ++ toString (explicit_features.length - 3) ++ " más)"]
            else [])
    else parts2
  if parts3 ≠ [] then String.intercalate "\n" parts3
  else
    "Esta sección no fue encontrada en el documento analizado. Es necesaria para completar el PRD del producto \x27"
      ++ product_name ++ "\x27."

/-- Section key named by a `missing_sections` entry, if any. -/
def MissingEntry.sectionKey : MissingEntry → Option String
  | .plain s => some s
  | .detailed k _ => k

/-- Reason carried by a `missing_sections` entry (empty for the plain
string form, `.get("reason", "")` for the object form). -/
def MissingEntry.reason : MissingEntry → String
  | .plain _ => ""
  | .detailed _ r => r.getD ""

/-- Gap constructed from one `missing_sections` entry: the entry is dropped
when it names no key or an unknown key (`PRDTemplate.get_section` returns
`None`); otherwise the gap copies key, title and priority from the template
section, with an empty question and the assembled context. -/
def gapOfMissing (product_name : String)
    (extracted_info : List (String × String)) (explicit_features : List String)
    (item : MissingEntry) : Option Gap :=
  match item.sectionKey with
  | none => none
  | some sk =>
    match getSection sk with
    | none => none
    | some sec =>
        some { section_key := sec.key
               section_title := sec.title
               priority := sec.priority
               question := ""
               context := gapContext sk product_name extracted_info
                            explicit_features item.reason
               options := none }

/-- Pure core of `analyze_input` (prd_builder.py): turns the parsed model
response into an `AnalysisResult`, reading each field with its source
default and building gaps from `missing_sections`. -/
def analyzeInputParsed (p : ParsedAnalysis) : AnalysisResult :=
  let product_name := p.product_name.getD "Producto Sin Nombre"
  let extracted_info := p.extracted_info.getD []
  let explicit_features := p.explicit_features.getD []
  { product_name := product_name
    extracted_info := extracted_info
    confidence_scores := p.confidence_scores.getD []
    explicit_features := explicit_features
    inferred_features := p.inferred_features.getD []
    gaps := (p.missing_sections.getD []).filterMap
              (gapOfMissing product_name extracted_info explicit_features) }

/-- The whole `analyze_input` call including its `try/except`: the
collaborator (one chat-completion call plus `json.loads`) is modelled as a
stream of outcomes, one per call the code would make; the second component
of the result is the number of collaborator calls performed.  The source
makes a single call and wraps any exception into
`RuntimeError("Error analyzing input: ...")` with no retry. -/
def analyzeInputRun (responses : List (Except String ParsedAnalysis)) :
    Except String AnalysisResult × Nat :=
  match responses.head? with
  | none => (Except.error "Error analyzing input: no response", 1)
  | some (Except.error e) => (Except.error ("Error analyzing input: " ++ e), 1)
  | some (Except.ok parsed) => (Except.ok (analyzeInputParsed parsed), 1)

/-- One entry of the `questions` array parsed from the question-generation
model response; each field is read with `.get`, so each may be absent. -/
structure QuestionData where
  section_key : Option String := none
  question : Option String := none
  context : Option String := none
  options : Option (List String) := none
deriving DecidableEq, Repr

/-- Gap built from one parsed question entry in `generate_questions`:
dropped when the entry names no key or a key unknown to the template;
otherwise key, title and priority come from the template section and
question, context and options from the model entry. -/
def gapOfQuestionData (q : QuestionData) : Option Gap :=
  match q.section_key with
  | none => none
  | some sk =>
    match getSection sk with
    | none => none
    | some sec =>
        some { section_key := sec.key
               section_title := sec.title
               priority := sec.priority
               question := q.question.getD ""
               context := q.context.getD ""
               options := q.options }

/-- `generate_questions` (prd_builder.py).  The collaborator call is
modelled by its parsed outcome `call` (the `questions` array, or the
exception message).  The source returns `[]` early when there are no gaps
at all or no critical/important gaps, then takes the first `max_questions`
parsed entries in model order and keeps those resolving to a known
template section. -/
def generateQuestions (analysis : AnalysisResult) (max_questions : Nat)
    (call : Except String (List QuestionData)) : Except String (List Gap) :=
  if analysis.gaps = [] then Except.ok []
  else
    let critical_gaps := analysis.gaps.filter (fun g => g.priority = SectionPriority.critical)
    let important_gaps := analysis.gaps.filter (fun g => g.priority = SectionPriority.important)
    if critical_gaps = [] ∧ important_gaps = [] then Except.ok []
    else
      match call with
      | Except.error e => Except.error ("Error generating questions: " ++ e)
      | Except.ok questions_data =>
          Except.ok ((questions_data.take max_questions).filterMap gapOfQuestionData)

/-- Python dictionary union `\x7b**a, **b\x7d` over association lists:
the keys of `a` in order with values overridden by `b` where present,
followed by the entries of `b` whose keys are absent from `a`. -/
def pyDictMerge (a b : List (String × String)) : List (String × String) :=
  a.map (fun p => (p.1, (b.lookup p.1).getD p.2))
    ++ b.filter (fun p => (a.lookup p.1).isNone)

/-- A complete PRD document (`PRD` dataclass in prd_template.py), sections
as an ordered map section_key to content.  The `metadata` dictionary of the
source (generation timestamp, feature list, formatted confidence
percentage) is presentation-only and read by no operation verified here,
so it is omitted. -/
structure PRD where
  product_name : String
  sections : List (String × String)

/-- Interface of the formatting collaborator used by
`_format_section_content`: one chat-completion call, a pure function of
the section, the raw content and the product name (the prompt is built
from exactly these), returning the response text or an exception
message. -/
def FormatClient : Type :=
  PRDSection → String → String → Except String String

/-- `_format_section_content` (prd_builder.py): on success return the model
response stripped; on any exception fall back to the raw content
unchanged. -/
def formatSectionContent (sec : PRDSection) (raw_content : String)
    (product_name : String) (client : FormatClient) : String :=
  match client sec raw_content product_name with
  | Except.ok response => response.trim
  | Except.error _ => raw_content

/-- The content `build_prd` resolves for a section key:
`all_content.get(section.key, "")` where
`all_content = \x7b**analysis.extracted_info, **user_answers\x7d`. -/
def buildPRDResolved (analysis : AnalysisResult)
    (user_answers : List (String × String)) (k : String) : String :=
  ((pyDictMerge analysis.extracted_info user_answers).lookup k).getD ""

/-- `build_prd` (prd_builder.py): for each template section resolve content
from extracted info overridden by user answers, skip blank content and the
literal `missing_sections` marker, and store the formatted content. -/
def buildPRD (analysis : AnalysisResult) (user_answers : List (String × String))
    (client : FormatClient) : PRD :=
  { product_name := analysis.product_name
    sections := SECTIONS.filterMap (fun sec =>
      let content := buildPRDResolved analysis user_answers sec.key
      if content = "" ∨ content.trim = "" ∨ content.trim.toLower = "missing_sections" then
        none
      else
        some (sec.key, formatSectionContent sec content analysis.product_name client)) }

/-- An identified feature in a workspace analysis.  In the source these are
loose dictionaries; the merge reads only `feature.get('name', str(feature))`.
We model the optional `name` binding plus the remaining bindings; the Python
`str(feature)` fallback rendering is modelled by `Feature.printed`. -/
structure Feature where
  name : Option String := none
  rest : List (String × String) := []
deriving DecidableEq, Repr

/-- Canonical rendering standing for Python `str(feature)`. -/
def Feature.printed (f : Feature) : String :=
  String.intercalate ", " (f.rest.map (fun p => p.1 ++ ": " ++ p.2))

/-- Identity key used to deduplicate features:
`feature.get('name', str(feature))`. -/
def Feature.key (f : Feature) : String :=
  match f.name with
  | some n => n
  | none => f.printed

/-- `ModuleSuggestion` (api/models/workspace.py). -/
structure ModuleSuggestion where
  name : String
  rationale : String
  priority : String
  estimated_effort : Option String := none
deriving DecidableEq, Repr

/-- `TechStackRecommendation` (api/models/workspace.py); the `rationale`
dictionary is carried as an association list. -/
structure TechStackRecommendation where
  frontend : List String := []
  backend : List String := []
  database : List String := []
  infrastructure : List String := []
  rationale : List (String × String) := []
deriving DecidableEq, Repr

/-- `ResourceEstimation` (api/models/workspace.py); dictionaries are
carried as association lists. -/
structure ResourceEstimation where
  team_size_input : Option Int := none
  estimated_timeline : Option String := none
  deadline_input : Option String := none
  required_team_size : Option Int := none
  required_team_composition : Option (List (String × String)) := none
  breakdown_by_module : List (List (String × String)) := []
  assumptions : List String := []
  confidence_level : Option String := none
deriving DecidableEq, Repr

/-- `WorkspaceAnalysis` (api/models/workspace.py). -/
structure WorkspaceAnalysis where
  workspace_id : String
  executive_summary : String := ""
  project_scope : List (String × String) := []
  business_objectives : List String := []
  identified_features : List Feature := []
  suggested_modules : List ModuleSuggestion := []
  tech_stack_recommendation : Option TechStackRecommendation := none
  architecture_overview : String := ""
  resource_estimation : Option ResourceEstimation := none
  timeline_estimation : Option (List (String × String)) := none
  technical_risks : List String := []
  business_risks : List String := []
deriving DecidableEq, Repr

/-- Python `a or b` on strings: the empty string is falsy. -/
def pyStrOr (a b : String) : String := if a = "" then b else a

/-- Python `a or b` on dictionaries: the empty dictionary is falsy. -/
def pyDictOr (a b : List (String × String)) : List (String × String) :=
  if a = [] then b else a

/-- Python `a if a else b` / `a or b` on optional pydantic models: `None`
is falsy, any model instance is truthy. -/
def pyOptOr {α : Type} (a b : Option α) : Option α :=
  match a with
  | some x => some x
  | none => b

/-- Python `a or b` on `Optional[dict]`: both `None` and the empty
dictionary are falsy. -/
def pyOptDictOr (a b : Option (List (String × String))) :
    Option (List (String × String)) :=
  match a with
  | some l => if l = [] then b else some l
  | none => b

/-- One pass of the duplicate-suppressing accumulation in
`_merge_analyses`: walk `l`, skipping elements whose key is already in
`seen`, recording each kept key.  Returns the final seen set and the kept
elements in order. -/
def addUnseen {α : Type} (key : α → String) :
    List String → List α → List String × List α
  | seen, [] => (seen, [])
  | seen, x :: xs =>
      if key x ∈ seen then addUnseen key seen xs
      else
        let p := addUnseen key (key x :: seen) xs
        (p.1, x :: p.2)

/-- The new-first keyed union used for `identified_features` and
`suggested_modules` in `_merge_analyses`: new entries first (deduplicated
by key), then the previous entries whose keys were not seen. -/
def mergeByKey {α : Type} (key : α → String) (newL oldL : List α) : List α :=
  let p := addUnseen key [] newL
  let q := addUnseen key p.1 oldL
  p.2 ++ q.2

/-- The old-first union used for the risk and objective lists in
`_merge_analyses`: start from the previous list and append each new entry
not already present (exact string membership). -/
def appendNew : List String → List String → List String
  | acc, [] => acc
  | acc, r :: rs => if r ∈ acc then appendNew acc rs else appendNew (acc ++ [r]) rs

/-- `WorkspaceProcessor._merge_analyses` (workspace_processor.py),
field by field as in the source. -/
def mergeAnalyses (previous latest : WorkspaceAnalysis) : WorkspaceAnalysis :=
  { workspace_id := latest.workspace_id
    executive_summary := pyStrOr latest.executive_summary previous.executive_summary
    project_scope := pyDictOr latest.project_scope previous.project_scope
    business_objectives := appendNew previous.business_objectives latest.business_objectives
    identified_features :=
      mergeByKey Feature.key latest.identified_features previous.identified_features
    suggested_modules :=
      mergeByKey ModuleSuggestion.name latest.suggested_modules previous.suggested_modules
    tech_stack_recommendation :=
      pyOptOr latest.tech_stack_recommendation previous.tech_stack_recommendation
    architecture_overview := pyStrOr latest.architecture_overview previous.architecture_overview
    resource_estimation := pyOptOr latest.resource_estimation previous.resource_estimation
    timeline_estimation := pyOptDictOr latest.timeline_estimation previous.timeline_estimation
    technical_risks := appendNew previous.technical_risks latest.technical_risks
    business_risks := appendNew previous.business_risks latest.business_risks }

/-- One saved answer entry in `answers.json`
(`save_answer` in project_processor.py). -/
structure AnswerRecord where
  section_key : String
  section_title : String
  question : String
  answer : String
  answered_at : String
  skipped : Bool
deriving DecidableEq, Repr

/-- The persisted `answers.json` record (project_processor.py). -/
structure AnswersData where
  session_started : String := ""
  last_updated : String := ""
  answers : List AnswerRecord := []
  regeneration_count : Nat := 0
  status : String := "in_progress"
  completed_at : Option String := none
deriving DecidableEq, Repr

/-- The upsert in `save_answer`: replace the first record with the same
`section_key`, else append. -/
def upsertAnswer (entry : AnswerRecord) : List AnswerRecord → List AnswerRecord
  | [] => [entry]
  | r :: rs =>
      if r.section_key = entry.section_key then entry :: rs
      else r :: upsertAnswer entry rs

/-- Number of non-skipped answers, recomputed from the list exactly as the
source does after each write. -/
def answeredCount (answers : List AnswerRecord) : Nat :=
  (answers.filter (fun a => !a.skipped)).length

/-- Number of skipped answers, recomputed from the list. -/
def skippedCount (answers : List AnswerRecord) : Nat :=
  (answers.filter (fun a => a.skipped)).length

/-- `ProjectProcessor.save_answer` (project_processor.py).  `stateExists`
models whether `state.json` loads; `answersFile` is the persisted
`answers.json` (`none` when the file does not exist).  The result carries
the rewritten answers record and the recomputed answered/skipped counts.
The source performs no check of `answers_data["status"]`. -/
def saveAnswer (stateExists : Bool) (answersFile : Option AnswersData)
    (section_key answer : String) (skipped : Bool)
    (question section_title now : String) :
    Except String (AnswersData × Nat × Nat) :=
  if !stateExists then Except.error "Project not found"
  else
    match answersFile with
    | none => Except.error "Interactive session not started"
    | some d =>
        let entry : AnswerRecord :=
          { section_key := section_key, section_title := section_title,
            question := question, answer := answer,
            answered_at := now, skipped := skipped }
        let answers := upsertAnswer entry d.answers
        let d2 : AnswersData := { d with answers := answers, last_updated := now }
        Except.ok (d2, answeredCount answers, skippedCount answers)

/-- `ProjectProcessor.finalize_session` (project_processor.py): set the
status to `completed` and stamp `completed_at`.  (The accompanying
`ProjectState` flag updates touch no field read by `save_answer`.) -/
def finalizeSession (stateExists : Bool) (answersFile : Option AnswersData)
    (now : String) : Except String AnswersData :=
  if !stateExists then Except.error "Project not found"
  else
    match answersFile with
    | none => Except.error "No active session to finalize"
    | some d => Except.ok { d with status := "completed", completed_at := some now }

/-- One question entry as serialized into `questions_cache.json`. -/
structure QuestionOut where
  section_key : String
  section_title : String
  priority : String
  question : String
  context : String
  options : Option (List String)
deriving DecidableEq, Repr

/-- Serialization of a gap into a cached question entry
(`start_interactive_session`). -/
def toQuestionOut (g : Gap) : QuestionOut :=
  { section_key := g.section_key, section_title := g.section_title,
    priority := g.priority.value, question := g.question,
    context := g.context, options := g.options }

/-- The `questions_by_priority` map in `questions_cache.json`. -/
structure QuestionsByPriority where
  critical : List QuestionOut := []
  important : List QuestionOut := []
  optional : List QuestionOut := []
deriving DecidableEq, Repr

/-- The persisted `questions_cache.json` record. -/
structure QuestionsCache where
  questions_by_priority : QuestionsByPriority
  total_count : Nat
  generated_at : String
deriving DecidableEq, Repr

/-- The per-project persisted files read and written by the interactive
session operations; `none` models a missing file. -/
structure SessionFiles where
  questions_cache : Option QuestionsCache := none
  answers_data : Option AnswersData := none
deriving DecidableEq, Repr

/-- The dictionary returned by `start_interactive_session` and
`get_cached_questions`. -/
structure StartResult where
  questions_by_priority : QuestionsByPriority
  answered_count : Nat
  skipped_count : Nat
  pending_count : Nat
  regeneration_count : Nat
  previous_answers : List AnswerRecord
  cached : Bool
deriving DecidableEq, Repr

/-- The default answers record `get_cached_questions` assumes when
`answers.json` does not exist. -/
def defaultAnswersData : AnswersData :=
  { session_started := "", last_updated := "", answers := [],
    regeneration_count := 0, status := "in_progress", completed_at := none }

/-- `ProjectProcessor.get_cached_questions` (project_processor.py): `none`
when no questions cache exists; otherwise the cached questions together
with counts recomputed from the answers file.  It performs no model
call. -/
def getCachedQuestions (files : SessionFiles) : Option StartResult :=
  match files.questions_cache with
  | none => none
  | some qc =>
      let ad := files.answers_data.getD defaultAnswersData
      some { questions_by_priority := qc.questions_by_priority
             answered_count := answeredCount ad.answers
             skipped_count := skippedCount ad.answers
             pending_count := qc.total_count
             regeneration_count := ad.regeneration_count
             previous_answers := ad.answers
             cached := true }

/-- Modelled from the spec: `regenerate_questions_with_context` is imported
by `start_interactive_session` from `src.prd_builder` but its definition is
absent from the sources.  Per the spec it performs one language-model call
and returns regenerated gap questions given the previously answered
sections.  It is modelled as a function parameter from the
previously-answered map to the question list; each invocation counts as
one external model call.  Its arguments are the `max_questions` bound and
the previously-answered map, as passed at the call site. -/
def QuestionGenerator : Type :=
  Nat → List (String × String) → List Gap

/-- The cache-miss branch of `start_interactive_session`: create the
answers file if missing, collect previous non-skipped answers, make one
model call, partition questions by priority, write the questions cache and
return the fresh result.  The third component is the number of model calls
performed (one). -/
def startRegenerate (files : SessionFiles) (gen : QuestionGenerator)
    (max_questions : Nat) (now : String) : StartResult × SessionFiles × Nat :=
  let ad :=
    match files.answers_data with
    | some d => d
    | none =>
        { session_started := now, last_updated := now, answers := [],
          regeneration_count := 0, status := "in_progress", completed_at := none }
  let previous_answers :=
    (ad.answers.filter (fun a => !a.skipped)).map (fun a => (a.section_key, a.answer))
  let questions := gen max_questions previous_answers
  let qbp : QuestionsByPriority :=
    { critical := (questions.filter (fun q => q.priority.value = "critical")).map toQuestionOut
      important := (questions.filter (fun q => q.priority.value = "important")).map toQuestionOut
      optional := (questions.filter (fun q => q.priority.value = "optional")).map toQuestionOut }
  let qc : QuestionsCache :=
    { questions_by_priority := qbp, total_count := questions.length, generated_at := now }
  ( { questions_by_priority := qbp
      answered_count := answeredCount ad.answers
      skipped_count := skippedCount ad.answers
      pending_count := questions.length
      regeneration_count := ad.regeneration_count
      previous_answers := ad.answers
      cached := false },
    { questions_cache := some qc, answers_data := some ad },
    1 )

/-- `ProjectProcessor.start_interactive_session` (project_processor.py):
requires gaps analyzed; with no forced regeneration and an existing
questions cache it returns the cached questions (zero model calls, files
unchanged), otherwise it regenerates (one model call).  Returns the result
dictionary, the persisted files after the call, and the model-call
count. -/
def startInteractiveSession (gapsAnalyzed : Bool) (files : SessionFiles)
    (gen : QuestionGenerator) (max_questions : Nat) (force_regenerate : Bool)
    (now : String) : Except String (StartResult × SessionFiles × Nat) :=
  if !gapsAnalyzed then Except.error "Gaps must be analyzed first"
  else
    if !force_regenerate ∧ files.questions_cache.isSome then
      match getCachedQuestions files with
      | some r => Except.ok (r, files, 0)
      | none => Except.ok (startRegenerate files gen max_questions now)
    else Except.ok (startRegenerate files gen max_questions now)

theorem subset_appendNew (l' : List String) :
    ∀ acc : List String, acc ⊆ appendNew acc l' := by
  induction l' with
  | nil => intro acc; simp [appendNew]
  | cons r rs ih =>
      intro acc x hx
      by_cases hr : r ∈ acc
      · simpa [appendNew, hr] using ih acc hx
      · have : x ∈ acc ++ [r] := List.mem_append_left _ hx
        simpa [appendNew, hr] using ih (acc ++ [r]) this

theorem mem_appendNew_of_mem_right (l' : List String) :
    ∀ acc r, r ∈ l' → r ∈ appendNew acc l' := by
  induction l' with
  | nil => intro acc r h; cases h
  | cons x xs ih =>
      intro acc r hr
      by_cases hx : x ∈ acc
      · rcases List.mem_cons.mp hr with rfl | h
        · simpa [appendNew, hx] using subset_appendNew xs acc hx
        · simpa [appendNew, hx] using ih acc r h
      · rcases List.mem_cons.mp hr with rfl | h
        · have hmem : r ∈ acc ++ [r] := List.mem_append_right _ (by simp)
          simpa [appendNew, hx] using subset_appendNew xs (acc ++ [r]) hmem
        · simpa [appendNew, hx] using ih (acc ++ [x]) r h

theorem appendNew_eq_of_subset (l' : List String) :
    ∀ acc, (∀ r ∈ l', r ∈ acc) → appendNew acc l' = acc := by
  induction l' with
  | nil => intro acc _; rfl
  | cons x xs ih =>
      intro acc h
      have hx : x ∈ acc := h x (by simp)
      have : appendNew acc (x :: xs) = appendNew acc xs := by simp [appendNew, hx]
      rw [this, ih acc (fun r hr => h r (by simp [hr]))]

theorem appendNew_decomp (l' : List String) :
    ∀ acc, ∃ t, appendNew acc l' = acc ++ t ∧ ∀ r ∈ t, r ∈ l' ∧ r ∉ acc := by
  induction l' with
  | nil => intro acc; exact ⟨[], by simp [appendNew], by simp⟩
  | cons x xs ih =>
      intro acc
      by_cases hx : x ∈ acc
      · obtain ⟨t, ht, hmem⟩ := ih acc
        exact ⟨t, by simpa [appendNew, hx] using ht,
          fun r hr => ⟨List.mem_cons_of_mem _ (hmem r hr).1, (hmem r hr).2⟩⟩
      · obtain ⟨t, ht, hmem⟩ := ih (acc ++ [x])
        refine ⟨x :: t, ?_, ?_⟩
        · rw [show appendNew acc (x :: xs) = appendNew (acc ++ [x]) xs from by
              simp [appendNew, hx],
            ht, List.append_assoc]
          rfl
        · intro r hr
          rcases List.mem_cons.mp hr with h | h
          · subst h; exact ⟨by simp, hx⟩
          · have h1 := (hmem r h).1
            have h2 := (hmem r h).2
            exact ⟨List.mem_cons_of_mem _ h1,
              fun hc => h2 (List.mem_append_left _ hc)⟩

theorem appendNew_nodup (l' : List String) :
    ∀ acc, acc.Nodup → (appendNew acc l').Nodup := by
  induction l' with
  | nil => intro acc h; exact h
  | cons x xs ih =>
      intro acc h
      by_cases hx : x ∈ acc
      · simpa [appendNew, hx] using ih acc h
      · have : (acc ++ [x]).Nodup := by
          simpa [List.nodup_append] using ⟨h, hx⟩
        simpa [appendNew, hx] using ih (acc ++ [x]) this

theorem appendNew_idem (acc l' : List String) :
    appendNew (appendNew acc l') l' = appendNew acc l' :=
  appendNew_eq_of_subset l' _ (fun r hr => mem_appendNew_of_mem_right l' acc r hr)

theorem addUnseen_fst_superset {α : Type} (key : α → String) (l : List α) :
    ∀ seen, seen ⊆ (addUnseen key seen l).1 := by
  induction l with
  | nil => intro seen; simp [addUnseen]
  | cons x xs ih =>
      intro seen y hy
      by_cases hx : key x ∈ seen
      · simpa [addUnseen, hx] using ih seen hy
      · have : y ∈ key x :: seen := List.mem_cons_of_mem _ hy
        simpa [addUnseen, hx] using ih (key x :: seen) this

theorem key_mem_fst_of_mem_snd {α : Type} (key : α → String) (l : List α) :
    ∀ seen x, x ∈ (addUnseen key seen l).2 → key x ∈ (addUnseen key seen l).1 := by
  induction l with
  | nil => intro seen x hx; simp [addUnseen] at hx
  | cons y ys ih =>
      intro seen x hx
      by_cases hy : key y ∈ seen
      · simpa [addUnseen, hy] using ih seen x (by simpa [addUnseen, hy] using hx)
      · simp only [addUnseen, hy, if_false] at hx ⊢
        rcases List.mem_cons.mp hx with h | h
        · subst h
          exact addUnseen_fst_superset key ys (key x :: seen) (by simp)
        · exact ih (key y :: seen) x h

theorem addUnseen_eq_of_all_seen {α : Type} (key : α → String) (l : List α) :
    ∀ seen, (∀ x ∈ l, key x ∈ seen) → addUnseen key seen l = (seen, []) := by
  induction l with
  | nil => intro seen _; rfl
  | cons x xs ih =>
      intro seen h
      have hx : key x ∈ seen := h x (by simp)
      have : addUnseen key seen (x :: xs) = addUnseen key seen xs := by
        simp [addUnseen, hx]
      rw [this, ih seen (fun y hy => h y (by simp [hy]))]

theorem addUnseen_stable {α : Type} (key : α → String) (l : List α) :
    ∀ seen, addUnseen key seen (addUnseen key seen l).2 = addUnseen key seen l := by
  induction l with
  | nil => intro seen; simp [addUnseen]
  | cons x xs ih =>
      intro seen
      by_cases hx : key x ∈ seen
      · simpa [addUnseen, hx] using ih seen
      · simp [addUnseen, hx, ih (key x :: seen)]

theorem addUnseen_append {α : Type} (key : α → String) (l l' : List α) :
    ∀ seen, addUnseen key seen (l ++ l') =
      ((addUnseen key (addUnseen key seen l).1 l').1,
        (addUnseen key seen l).2 ++ (addUnseen key (addUnseen key seen l).1 l').2) := by
  induction l with
  | nil => intro seen; simp [addUnseen]
  | cons x xs ih =>
      intro seen
      by_cases hx : key x ∈ seen
      · simpa [addUnseen, hx] using ih seen
      · simp [addUnseen, hx, ih (key x :: seen)]

theorem addUnseen_snd_subset {α : Type} (key : α → String) (l : List α) :
    ∀ seen, (addUnseen key seen l).2 ⊆ l := by
  induction l with
  | nil => intro seen; simp [addUnseen]
  | cons x xs ih =>
      intro seen y hy
      by_cases hx : key x ∈ seen
      · exact List.mem_cons_of_mem _ (ih seen (by simpa [addUnseen, hx] using hy))
      · simp only [addUnseen, hx, if_false] at hy
        rcases List.mem_cons.mp hy with h | h
        · subst h; simp
        · exact List.mem_cons_of_mem _ (ih (key x :: seen) h)

theorem mergeByKey_idem {α : Type} (key : α → String) (newL oldL : List α) :
    mergeByKey key newL (mergeByKey key newL oldL) = mergeByKey key newL oldL := by
  simp only [mergeByKey]
  rw [addUnseen_append]
  have h1 : addUnseen key (addUnseen key [] newL).1 (addUnseen key [] newL).2 =
      ((addUnseen key [] newL).1, []) :=
    addUnseen_eq_of_all_seen key _ _
      (fun x hx => key_mem_fst_of_mem_snd key newL [] x hx)
  rw [h1]
  simp [addUnseen_stable]

theorem lookup_append_left {α β : Type} [BEq α] {k : α} {v : β}
    {xs : List (α × β)} (ys : List (α × β)) (h : xs.lookup k = some v) :
    (xs ++ ys).lookup k = some v := by
  induction xs with
  | nil => simp [List.lookup] at h
  | cons p ps ih =>
      by_cases hk : k == p.1
      · simpa [List.lookup, hk] using by simpa [List.lookup, hk] using h
      · have h' : ps.lookup k = some v := by simpa [List.lookup, hk] using h
        simpa [List.lookup, hk] using ih h'

theorem lookup_append_right {α β : Type} [BEq α] {k : α}
    {xs : List (α × β)} (ys : List (α × β)) (h : xs.lookup k = none) :
    (xs ++ ys).lookup k = ys.lookup k := by
  induction xs with
  | nil => simp
  | cons p ps ih =>
      by_cases hk : k == p.1
      · simp [List.lookup, hk] at h
      · have h' : ps.lookup k = none := by simpa [List.lookup, hk] using h
        simpa [List.lookup, hk] using ih h'

theorem lookup_map_override {b : List (String × String)} {k v : String}
    (hb : b.lookup k = some v) :
    ∀ a : List (String × String), (a.lookup k).isSome →
      (a.map (fun p => (p.1, (b.lookup p.1).getD p.2))).lookup k = some v := by
  intro a
  induction a with
  | nil => simp [List.lookup]
  | cons p ps ih =>
      intro hsome
      by_cases hk : k == p.1
      · have : p.1 = k := (eq_of_beq hk).symm
        simp [List.lookup, hk, this, hb]
      · have h' : (ps.lookup k).isSome := by
          simpa [List.lookup, hk] using hsome
        simpa [List.lookup, hk] using ih h'

theorem lookup_map_override_none {b : List (String × String)} {k : String} :
    ∀ a : List (String × String), a.lookup k = none →
      (a.map (fun p => (p.1, (b.lookup p.1).getD p.2))).lookup k = none := by
  intro a
  induction a with
  | nil => simp [List.lookup]
  | cons p ps ih =>
      intro hnone
      by_cases hk : k == p.1
      · simp [List.lookup, hk] at hnone
      · have h' : ps.lookup k = none := by simpa [List.lookup, hk] using hnone
        simpa [List.lookup, hk] using ih h'

theorem lookup_filter_absent {a : List (String × String)} {k : String}
    (ha : a.lookup k = none) :
    ∀ b : List (String × String),
      (b.filter (fun p => (a.lookup p.1).isNone)).lookup k = b.lookup k := by
  intro b
  induction b with
  | nil => simp
  | cons p ps ih =>
      by_cases hk : k == p.1
      · have hpk : p.1 = k := (eq_of_beq hk).symm
        have hkeep : (a.lookup p.1).isNone = true := by simp [hpk, ha]
        simp [List.filter, hkeep, List.lookup, hk]
      · by_cases hkeep : (a.lookup p.1).isNone = true
        · simpa [List.filter, hkeep, List.lookup, hk] using ih
        · simpa [List.filter, hkeep, List.lookup, hk] using ih

theorem lookup_pyDictMerge {b : List (String × String)} {k v : String}
    (hb : b.lookup k = some v) (a : List (String × String)) :
    (pyDictMerge a b).lookup k = some v := by
  unfold pyDictMerge
  cases ha : a.lookup k with
  | some w =>
      exact lookup_append_left _ (lookup_map_override hb a (by simp [ha]))
  | none =>
      rw [lookup_append_right _ (lookup_map_override_none a ha),
        lookup_filter_absent ha b, hb]

theorem mem_upsertAnswer (entry : AnswerRecord) :
    ∀ l : List AnswerRecord, entry ∈ upsertAnswer entry l := by
  intro l
  induction l with
  | nil => simp [upsertAnswer]
  | cons r rs ih =>
      by_cases h : r.section_key = entry.section_key
      · simp [upsertAnswer, h]
      · simp only [upsertAnswer, h, if_false, ite_false]
        exact List.mem_cons_of_mem _ ih

theorem upsertAnswer_status_free (entry : AnswerRecord) (l : List AnswerRecord) :
    (upsertAnswer entry l).length = l.length ∨
      (upsertAnswer entry l).length = l.length + 1 := by
  induction l with
  | nil => right; rfl
  | cons r rs ih =>
      by_cases h : r.section_key = entry.section_key
      · left; simp [upsertAnswer, h]
      · rcases ih with h1 | h1
        · left; simp [upsertAnswer, h, h1]
        · right; simp [upsertAnswer, h, h1]

theorem gapOfQuestionData_spec {q : QuestionData} {g : Gap}
    (h : gapOfQuestionData q = some g) :
    ∃ sec, getSection g.section_key = some sec ∧ g.priority = sec.priority ∧
      q.section_key = some g.section_key := by
  cases hq : q.section_key with
  | none => simp [gapOfQuestionData, hq] at h
  | some sk =>
      cases hs : getSection sk with
      | none => simp [gapOfQuestionData, hq, hs] at h
      | some sec =>
          simp only [gapOfQuestionData, hq, hs, Option.some.injEq] at h
          subst h
          have hkey : sec.key = sk := getSection_key_eq hs
          exact ⟨sec, by simpa [hkey] using hs, rfl, by simp [hq, hkey]⟩

theorem filterMap_gapOfQuestionData_keys_sublist :
    ∀ l : List QuestionData,
      ((l.filterMap gapOfQuestionData).map Gap.section_key).Sublist
        (l.filterMap QuestionData.section_key) := by
  intro l
  induction l with
  | nil => simp
  | cons q qs ih =>
      cases hg : gapOfQuestionData q with
      | none =>
          cases hq : q.section_key with
          | none => simpa [List.filterMap_cons, hg, hq] using ih
          | some sk =>
              simpa [List.filterMap_cons, hg, hq] using ih.cons sk
      | some g =>
          obtain ⟨sec, _, _, hqk⟩ := gapOfQuestionData_spec hg
          simpa [List.filterMap_cons, hg, hqk] using ih.cons₂ g.section_key

theorem pyStrOr_idem (a b : String) : pyStrOr a (pyStrOr a b) = pyStrOr a b := by
  unfold pyStrOr
  by_cases h : a = "" <;> simp [h]

theorem pyDictOr_idem (a b : List (String × String)) :
    pyDictOr a (pyDictOr a b) = pyDictOr a b := by
  unfold pyDictOr
  by_cases h : a = [] <;> simp [h]

theorem pyOptOr_idem {α : Type} (a b : Option α) :
    pyOptOr a (pyOptOr a b) = pyOptOr a b := by
  cases a <;> rfl

theorem pyOptDictOr_idem (a b : Option (List (String × String))) :
    pyOptDictOr a (pyOptDictOr a b) = pyOptDictOr a b := by
  cases a with
  | none => rfl
  | some l => by_cases h : l = [] <;> simp [pyOptDictOr, h]

/-- C4: merging the same new analysis into an already-merged result changes
nothing: `_merge_analyses(_merge_analyses(A, B), B)` equals
`_merge_analyses(A, B)` in every field, so re-running the merge with
identical new input causes no duplicate list growth. -/
theorem mergeAnalyses_idem (A B : WorkspaceAnalysis) :
    mergeAnalyses (mergeAnalyses A B) B = mergeAnalyses A B := by
  simp only [mergeAnalyses, WorkspaceAnalysis.mk.injEq]
  exact ⟨trivial, pyStrOr_idem _ _, pyDictOr_idem _ _, appendNew_idem _ _,
    mergeByKey_idem _ _ _, mergeByKey_idem _ _ _, pyOptOr_idem _ _,
    pyStrOr_idem _ _, pyOptOr_idem _ _, pyOptDictOr_idem _ _,
    appendNew_idem _ _, appendNew_idem _ _⟩

/-- Previous analysis with one technical risk, for the merge-order claim. -/
def exOrderPrev : WorkspaceAnalysis :=
  { workspace_id := "w1", technical_risks := ["Risk A"] }

/-- New analysis extracting one new technical risk. -/
def exOrderNew : WorkspaceAnalysis :=
  { workspace_id := "w1", technical_risks := ["Risk B"] }

/-- C3 counterexample: merging previous technical_risks `["Risk A"]` with
new technical_risks `["Risk B"]` yields `["Risk A", "Risk B"]` — previous
first — not the claimed `["Risk B", "Risk A"]`. -/
theorem mergeAnalyses_risks_not_new_first :
    (mergeAnalyses exOrderPrev exOrderNew).technical_risks = ["Risk A", "Risk B"] ∧
      (mergeAnalyses exOrderPrev exOrderNew).technical_risks ≠ ["Risk B", "Risk A"] := by
  decide

/-- C3 (amended): the merged `identified_features` and `suggested_modules`
are new-first (the new entries deduplicated by key, then leftover previous
entries), but `technical_risks`, `business_risks` and `business_objectives`
are previous-first: the previous list is kept as a prefix and only new
entries not already present are appended after it. -/
theorem mergeAnalyses_list_order (A B : WorkspaceAnalysis) :
    (∃ oldF, (mergeAnalyses A B).identified_features =
        (addUnseen Feature.key [] B.identified_features).2 ++ oldF ∧
        ∀ f ∈ oldF, f ∈ A.identified_features) ∧
    (∃ oldM, (mergeAnalyses A B).suggested_modules =
        (addUnseen ModuleSuggestion.name [] B.suggested_modules).2 ++ oldM ∧
        ∀ m ∈ oldM, m ∈ A.suggested_modules) ∧
    (∃ t, (mergeAnalyses A B).technical_risks = A.technical_risks ++ t ∧
        ∀ r ∈ t, r ∈ B.technical_risks ∧ r ∉ A.technical_risks) ∧
    (∃ t, (mergeAnalyses A B).business_risks = A.business_risks ++ t ∧
        ∀ r ∈ t, r ∈ B.business_risks ∧ r ∉ A.business_risks) ∧
    (∃ t, (mergeAnalyses A B).business_objectives = A.business_objectives ++ t ∧
        ∀ r ∈ t, r ∈ B.business_objectives ∧ r ∉ A.business_objectives) := by
  refine ⟨⟨_, rfl, ?_⟩, ⟨_, rfl, ?_⟩, appendNew_decomp _ _, appendNew_decomp _ _,
    appendNew_decomp _ _⟩
  · exact fun f hf => addUnseen_snd_subset Feature.key A.identified_features _ hf
  · exact fun m hm => addUnseen_snd_subset ModuleSuggestion.name A.suggested_modules _ hm

/-- Previous analysis for the dedup-normalization claim. -/
def exDedupPrev : WorkspaceAnalysis :=
  { workspace_id := "w2", technical_risks := ["Risk A"] }

/-- New analysis whose risk differs from the previous one only in letter
case. -/
def exDedupNew : WorkspaceAnalysis :=
  { workspace_id := "w2", technical_risks := ["risk a"] }

/-- C5 counterexample: two risks that differ only in letter case are not
treated as the same entry — both survive the merge, so the dedup key is
not case-insensitive. -/
theorem mergeAnalyses_dedup_not_normalized :
    (mergeAnalyses exDedupPrev exDedupNew).technical_risks = ["Risk A", "risk a"] ∧
      "Risk A".data.map Char.toLower = "risk a".data.map Char.toLower ∧
      "Risk A" ≠ "risk a" := by
  decide

/-- C5 (amended): duplicate suppression in `_merge_analyses` compares
entries by exact string equality — it suppresses exact duplicates (the
merged risk and objective lists stay duplicate-free whenever the previous
lists were), while entries differing only in case or whitespace count as
distinct and are both kept. -/
theorem mergeAnalyses_dedup_exact (A B : WorkspaceAnalysis)
    (h1 : A.technical_risks.Nodup) (h2 : A.business_risks.Nodup)
    (h3 : A.business_objectives.Nodup) :
    ((mergeAnalyses A B).technical_risks).Nodup ∧
      ((mergeAnalyses A B).business_risks).Nodup ∧
      ((mergeAnalyses A B).business_objectives).Nodup :=
  ⟨appendNew_nodup _ _ h1, appendNew_nodup _ _ h2, appendNew_nodup _ _ h3⟩

/-- Witness for the amended dedup statement at the concrete case-variant
inputs. -/
theorem mergeAnalyses_dedup_exact_witness :
    ((mergeAnalyses exDedupPrev exDedupNew).technical_risks).Nodup ∧
      ((mergeAnalyses exDedupPrev exDedupNew).business_risks).Nodup ∧
      ((mergeAnalyses exDedupPrev exDedupNew).business_objectives).Nodup :=
  mergeAnalyses_dedup_exact exDedupPrev exDedupNew (by decide) (by decide) (by decide)

/-- C2: the content `build_prd` resolves for a section key present in the
user answers is the answer for that key, whatever `extracted_info` holds
for the same key — a simple override, not a textual merge.  The two
analysis arguments make the independence from `extracted_info` explicit. -/
theorem buildPRD_answer_precedence (A1 A2 : AnalysisResult)
    (user_answers : List (String × String)) (k v : String)
    (h : user_answers.lookup k = some v) :
    buildPRDResolved A1 user_answers k = v ∧ buildPRDResolved A2 user_answers k = v := by
  unfold buildPRDResolved
  rw [lookup_pyDictMerge h A1.extracted_info, lookup_pyDictMerge h A2.extracted_info]
  exact ⟨rfl, rfl⟩

/-- Analysis whose extraction holds conflicting content for
`personas_roles`. -/
def exAnswerAnalysis : AnalysisResult :=
  { product_name := "P",
    extracted_info := [("personas_roles", "Mónica: Admin")],
    confidence_scores := [], explicit_features := [], inferred_features := [],
    gaps := [] }

/-- Analysis with empty extraction, for the same key. -/
def exAnswerAnalysisEmpty : AnalysisResult :=
  { product_name := "P", extracted_info := [], confidence_scores := [],
    explicit_features := [], inferred_features := [], gaps := [] }

/-- Witness: with the user answer present, the resolved content is the
answer both when the extraction holds conflicting content and when it holds
nothing. -/
theorem buildPRD_answer_precedence_witness :
    buildPRDResolved exAnswerAnalysis [("personas_roles", "Admin: Jane, Viewer: Bob")]
        "personas_roles" = "Admin: Jane, Viewer: Bob" ∧
      buildPRDResolved exAnswerAnalysisEmpty [("personas_roles", "Admin: Jane, Viewer: Bob")]
        "personas_roles" = "Admin: Jane, Viewer: Bob" :=
  buildPRD_answer_precedence exAnswerAnalysis exAnswerAnalysisEmpty
    [("personas_roles", "Admin: Jane, Viewer: Bob")] "personas_roles"
    "Admin: Jane, Viewer: Bob" rfl

/-- C10: when the formatting collaborator raises, `_format_section_content`
returns the raw content unchanged — assembly never fails and never
substitutes other text because formatting failed. -/
theorem formatSectionContent_fallback (sec : PRDSection) (raw product_name : String)
    (client : FormatClient) (e : String) (hraw : raw ≠ "")
    (hc : client sec raw product_name = Except.error e) :
    formatSectionContent sec raw product_name client = raw := by
  unfold formatSectionContent
  rw [hc]

/-- A formatting collaborator that always raises. -/
def exFailingClient : FormatClient := fun _ _ _ => Except.error "boom"

/-- Witness: the failing collaborator leaves a concrete section content
verbatim. -/
theorem formatSectionContent_fallback_witness :
    formatSectionContent
        { key := "personas_roles", title := "Personas & Roles",
          priority := SectionPriority.critical,
          description := "Detailed user personas and roles" }
        "Mónica is an administrator" "P" exFailingClient
      = "Mónica is an administrator" :=
  formatSectionContent_fallback _ _ _ exFailingClient "boom" (by decide) rfl

/-- Analysis with one critical gap and one important gap, for the question
ordering claim. -/
def exGapAnalysis : AnalysisResult :=
  { product_name := "P", extracted_info := [], confidence_scores := [],
    explicit_features := [], inferred_features := [],
    gaps :=
      [ { section_key := "business_context", section_title := "Business Context Brief",
          priority := SectionPriority.critical, question := "", context := "" },
        { section_key := "user_insights", section_title := "User Insights & Research Links",
          priority := SectionPriority.important, question := "", context := "" } ] }

/-- Parsed model response listing the important-tier question before the
critical-tier one. -/
def exQuestionData : List QuestionData :=
  [ { section_key := some "user_insights", question := some "Research?",
      context := some "", options := none },
    { section_key := some "business_context", question := some "Why now?",
      context := some "", options := none } ]

/-- C6 counterexample: with the model response listing an important
question first and `max_questions = 1`, `generate_questions` returns only
the important question and drops the critical one — the critical tier is
neither ordered first nor protected from truncation. -/
theorem generateQuestions_cap_drops_critical :
    generateQuestions exGapAnalysis 1 (Except.ok exQuestionData) =
        Except.ok [ { section_key := "user_insights",
                      section_title := "User Insights & Research Links",
                      priority := SectionPriority.important, question := "Research?",
                      context := "", options := none } ] ∧
      (∃ q ∈ exQuestionData, q.section_key = some "business_context") ∧
      (getSection "business_context").map PRDSection.priority =
        some SectionPriority.critical := by
  decide

/-- C6 (amended): `generate_questions` preserves the model response order
and truncates positionally: the returned list has at most `max_questions`
entries, every returned question carries the priority of its template
section, and the returned key sequence is a subsequence of the first
`max_questions` model response keys.  No reordering by priority and no
protection of critical questions is performed. -/
theorem generateQuestions_model_order (analysis : AnalysisResult) (mq : Nat)
    (qdata : List QuestionData) (out : List Gap)
    (h : generateQuestions analysis mq (Except.ok qdata) = Except.ok out) :
    out.length ≤ mq ∧
      (out.all (fun g =>
        (getSection g.section_key).map PRDSection.priority == some g.priority)) = true ∧
      (out.map Gap.section_key).Sublist
        ((qdata.take mq).filterMap QuestionData.section_key) := by
  have hmain : out = [] ∨ out = (qdata.take mq).filterMap gapOfQuestionData := by
    unfold generateQuestions at h
    split at h
    · left
      injection h with h2
      exact h2.symm
    · simp only [] at h
      split at h
      · left
        injection h with h2
        exact h2.symm
      · right
        injection h with h2
        exact h2.symm
  have hall : ∀ l : List QuestionData,
      ((l.filterMap gapOfQuestionData).all (fun g =>
        (getSection g.section_key).map PRDSection.priority == some g.priority)) = true := by
    intro l
    rw [List.all_eq_true]
    intro g hg
    obtain ⟨q, _, hq⟩ := List.mem_filterMap.mp hg
    obtain ⟨sec, hsec, hpr, _⟩ := gapOfQuestionData_spec hq
    simp [hsec, hpr]
  have hlen : ∀ l : List QuestionData,
      (l.filterMap gapOfQuestionData).length ≤ l.length := by
    intro l
    induction l with
    | nil => simp
    | cons q qs ih =>
        cases hq : gapOfQuestionData q with
        | none => simpa [List.filterMap_cons, hq] using Nat.le_succ_of_le ih
        | some g => simpa [List.filterMap_cons, hq] using Nat.succ_le_succ ih
  rcases hmain with rfl | rfl
  · simp
  · refine ⟨?_, hall _, filterMap_gapOfQuestionData_keys_sublist _⟩
    exact le_trans (hlen _) (List.length_take_le _ _)

/-- Witness for the amended ordering statement at the concrete inputs of
the counterexample. -/
theorem generateQuestions_model_order_witness :
    ((generateQuestions exGapAnalysis 1 (Except.ok exQuestionData)).toOption.getD []).length ≤ 1 ∧
      (((generateQuestions exGapAnalysis 1 (Except.ok exQuestionData)).toOption.getD []).all
        (fun g =>
          (getSection g.section_key).map PRDSection.priority == some g.priority)) = true ∧
      (((generateQuestions exGapAnalysis 1 (Except.ok exQuestionData)).toOption.getD []).map
          Gap.section_key).Sublist
        ((exQuestionData.take 1).filterMap QuestionData.section_key) :=
  generateQuestions_model_order exGapAnalysis 1 exQuestionData _ (by decide)

/-- Parsed model response listing `personas_roles` both in
`extracted_info` and in `missing_sections`. -/
def exParsedBoth : ParsedAnalysis :=
  { product_name := some "P",
    extracted_info := some [("personas_roles", "Admin: Jane")],
    missing_sections := some [MissingEntry.plain "personas_roles"] }

/-- C8 counterexample: `analyze_input` does not enforce exclusivity — when
the model output lists the same section in both `extracted_info` and
`missing_sections`, the returned analysis has the key in `extracted_info`
and a gap for the same key. -/
theorem analyzeInput_exclusivity_fails :
    ((analyzeInputParsed exParsedBoth).extracted_info.lookup "personas_roles").isSome
        = true ∧
      (analyzeInputParsed exParsedBoth).gaps.map Gap.section_key = ["personas_roles"] := by
  decide

theorem gapOfMissing_spec {pn : String} {ext : List (String × String)}
    {feats : List String} {e : MissingEntry} {g : Gap}
    (h : gapOfMissing pn ext feats e = some g) :
    e.sectionKey = some g.section_key := by
  cases he : e.sectionKey with
  | none => simp [gapOfMissing, he] at h
  | some sk =>
      cases hs : getSection sk with
      | none => simp [gapOfMissing, he, hs] at h
      | some sec =>
          simp only [gapOfMissing, he, hs, Option.some.injEq] at h
          subst h
          simp [getSection_key_eq hs]

/-- C8 (amended): exclusivity of `extracted_info` and `gaps` is not
enforced by `analyze_input`; it holds exactly when the parsed model output
itself keeps `missing_sections` disjoint from the extracted keys, in which
case no gap key has extracted content. -/
theorem analyzeInput_exclusive_when_model_disjoint (p : ParsedAnalysis)
    (h : ((p.missing_sections.getD []).all (fun e =>
        match e.sectionKey with
        | none => true
        | some k => ((p.extracted_info.getD []).lookup k).isNone)) = true) :
    ∀ g ∈ (analyzeInputParsed p).gaps,
      ((analyzeInputParsed p).extracted_info.lookup g.section_key) = none := by
  intro g hg
  have hgaps : (analyzeInputParsed p).gaps =
      (p.missing_sections.getD []).filterMap
        (gapOfMissing (p.product_name.getD "Producto Sin Nombre")
          (p.extracted_info.getD []) (p.explicit_features.getD [])) := rfl
  rw [hgaps] at hg
  obtain ⟨e, he, heg⟩ := List.mem_filterMap.mp hg
  have hkey := gapOfMissing_spec heg
  have hb := (List.all_eq_true.mp h) e he
  rw [hkey] at hb
  simp only [] at hb
  have hext : (analyzeInputParsed p).extracted_info = p.extracted_info.getD [] := rfl
  rw [hext]
  simpa [Option.isNone_iff_eq_none] using hb

/-- Parsed model response whose missing sections are disjoint from its
extracted keys. -/
def exParsedDisjoint : ParsedAnalysis :=
  { product_name := none,
    extracted_info := some [("solution_overview", "Integrates with payment gateway Y")],
    missing_sections := some [MissingEntry.plain "personas_roles"] }

/-- The gap `analyze_input` produces for the missing `personas_roles`
section of the disjoint example. -/
def exGapDisjoint : Gap :=
  { section_key := "personas_roles", section_title := "Personas & Roles",
    priority := SectionPriority.critical, question := "",
    context := "Esta sección no fue encontrada en el documento analizado. Es necesaria para completar el PRD del producto \x27Producto Sin Nombre\x27.",
    options := none }

/-- Witness: on the disjoint example, the gap key has no extracted
content. -/
theorem analyzeInput_exclusive_when_model_disjoint_witness :
    ((analyzeInputParsed exParsedDisjoint).extracted_info.lookup "personas_roles") = none :=
  analyzeInput_exclusive_when_model_disjoint exParsedDisjoint (by decide)
    exGapDisjoint (by decide)

/-- Well-formed parsed response a second extraction attempt would have
produced. -/
def exParsedRetry : ParsedAnalysis :=
  { product_name := some "P" }

/-- The collaborator response stream for the retry claim: a structurally
malformed first response, then a well-formed one. -/
def exRetryResponses : List (Except String ParsedAnalysis) :=
  [Except.error "Expecting value", Except.ok exParsedRetry]

/-- C9 counterexample: with a malformed first response and a well-formed
second available, `analyze_input` performs exactly one collaborator call
and raises — it does not retry with a stricter decoding mode even though
the retry would have succeeded. -/
theorem analyzeInput_no_retry :
    analyzeInputRun exRetryResponses =
      (Except.error "Error analyzing input: Expecting value", 1) := by
  rfl

/-- C9 (amended): `analyze_input` makes exactly one extraction call; on a
structural failure it raises `RuntimeError` immediately, with no retry and
no partial result. -/
theorem analyzeInput_single_call (rs : List (Except String ParsedAnalysis)) :
    (analyzeInputRun rs).2 = 1 ∧
      (∀ e, rs.head? = some (Except.error e) →
        (analyzeInputRun rs).1 = Except.error ("Error analyzing input: " ++ e)) := by
  constructor
  · rcases rs with _ | ⟨r, rs'⟩
    · rfl
    · cases r <;> rfl
  · intro e he
    unfold analyzeInputRun
    rw [he]

/-- Witness for the single-call statement at the concrete failing
stream. -/
theorem analyzeInput_single_call_witness :
    (analyzeInputRun exRetryResponses).2 = 1 ∧
      (analyzeInputRun exRetryResponses).1 =
        Except.error ("Error analyzing input: " ++ "Expecting value") :=
  ⟨(analyzeInput_single_call exRetryResponses).1,
    (analyzeInput_single_call exRetryResponses).2 "Expecting value" rfl⟩

/-- An in-progress session record with no answers yet. -/
def exSessionData : AnswersData :=
  { session_started := "t0", last_updated := "t0", answers := [],
    regeneration_count := 0, status := "in_progress", completed_at := none }

/-- The same record after `finalize_session` at time `t1`. -/
def exFinalizedData : AnswersData :=
  { session_started := "t0", last_updated := "t0", answers := [],
    regeneration_count := 0, status := "completed", completed_at := some "t1" }

/-- C1 counterexample: after `finalize_session` has set the status to
`completed`, a `save_answer` call does not raise — it succeeds and writes
the answer, changing the persisted answers list and the counts. -/
theorem saveAnswer_after_finalize_succeeds :
    finalizeSession true (some exSessionData) "t1" = Except.ok exFinalizedData ∧
      saveAnswer true (some exFinalizedData) "personas_roles" "Admin: Jane" false
          "Who are the primary users?" "Personas & Roles" "t2" =
        Except.ok
          ({ session_started := "t0", last_updated := "t2",
             answers := [ { section_key := "personas_roles",
                            section_title := "Personas & Roles",
                            question := "Who are the primary users?",
                            answer := "Admin: Jane", answered_at := "t2",
                            skipped := false } ],
             regeneration_count := 0, status := "completed",
             completed_at := some "t1" }, 1, 0) := by
  decide

/-- C1 (amended): `save_answer` performs no status check.  After
`finalize_session`, a `save_answer` call succeeds: it upserts the answer
into the persisted list, leaves the status `completed`, and returns the
answered/skipped counts recomputed from the updated list.  It raises only
when the project or the answers file is missing. -/
theorem saveAnswer_ignores_completed (d : AnswersData) (now1 : String)
    (sk ans : String) (skp : Bool) (q st now2 : String) :
    ∃ d1 d2 a s,
      finalizeSession true (some d) now1 = Except.ok d1 ∧
      d1.status = "completed" ∧
      saveAnswer true (some d1) sk ans skp q st now2 = Except.ok (d2, a, s) ∧
      d2.status = "completed" ∧
      (∃ r ∈ d2.answers, r.section_key = sk ∧ r.answer = ans ∧ r.skipped = skp) ∧
      a = answeredCount d2.answers ∧ s = skippedCount d2.answers := by
  refine ⟨_, _, _, _, rfl, rfl, rfl, rfl, ?_, rfl, rfl⟩
  exact ⟨_, mem_upsertAnswer _ _, rfl, rfl, rfl⟩

/-- A fallback start result for reading a cached-questions option that is
known to be present. -/
def dummyStartResult : StartResult :=
  { questions_by_priority := {}, answered_count := 0, skipped_count := 0,
    pending_count := 0, regeneration_count := 0, previous_answers := [],
    cached := false }

/-- C7: cache-hit cost control.  With an existing questions cache and
`force_regenerate = false`, `start_interactive_session` returns the cached
questions with zero model calls and unchanged files; starting from no
cache, the first call regenerates with exactly one model call and the
second call is then served from the written cache with zero model calls,
so two calls in a row issue exactly one model call in total. -/
theorem startSession_cache_cost (files : SessionFiles) (gen : QuestionGenerator)
    (mq : Nat) (now1 now2 : String) :
    (∀ qc, files.questions_cache = some qc →
        startInteractiveSession true files gen mq false now1 =
          Except.ok ((getCachedQuestions files).getD dummyStartResult, files, 0) ∧
        ((getCachedQuestions files).getD dummyStartResult).cached = true ∧
        ((getCachedQuestions files).getD dummyStartResult).questions_by_priority =
          qc.questions_by_priority) ∧
    (files.questions_cache = none →
        startInteractiveSession true files gen mq false now1 =
          Except.ok (startRegenerate files gen mq now1) ∧
        (startRegenerate files gen mq now1).2.2 = 1 ∧
        (startRegenerate files gen mq now1).1.cached = false ∧
        startInteractiveSession true (startRegenerate files gen mq now1).2.1 gen mq
            false now2 =
          Except.ok
            ((getCachedQuestions (startRegenerate files gen mq now1).2.1).getD
               dummyStartResult,
              (startRegenerate files gen mq now1).2.1, 0)) := by
  constructor
  · intro qc hqc
    refine ⟨?_, ?_, ?_⟩
    · simp [startInteractiveSession, getCachedQuestions, hqc]
    · simp [getCachedQuestions, hqc]
    · simp [getCachedQuestions, hqc]
  · intro hnone
    refine ⟨?_, rfl, rfl, ?_⟩
    · simp [startInteractiveSession, hnone]
    · simp [startInteractiveSession, startRegenerate, getCachedQuestions]

/-- Session files with no questions cache and no answers file. -/
def exFreshFiles : SessionFiles :=
  { questions_cache := none, answers_data := none }

/-- A question generator standing for the modelled
`regenerate_questions_with_context` collaborator. -/
def exGen : QuestionGenerator := fun _ _ => []

/-- Witness: starting twice from the fresh files issues one model call then
zero. -/
theorem startSession_cache_cost_witness :
    startInteractiveSession true exFreshFiles exGen 15 false "t1" =
        Except.ok (startRegenerate exFreshFiles exGen 15 "t1") ∧
      (startRegenerate exFreshFiles exGen 15 "t1").2.2 = 1 ∧
      (startRegenerate exFreshFiles exGen 15 "t1").1.cached = false ∧
      startInteractiveSession true (startRegenerate exFreshFiles exGen 15 "t1").2.1
          exGen 15 false "t2" =
        Except.ok
          ((getCachedQuestions (startRegenerate exFreshFiles exGen 15 "t1").2.1).getD
             dummyStartResult,
            (startRegenerate exFreshFiles exGen 15 "t1").2.1, 0) :=
  (startSession_cache_cost exFreshFiles exGen 15 "t1" "t2").2 rfl

end Hamann
